import Mathlib

/-!
Verification of the jira-demo queue-manager broker.

This file gives a shallow embedding, in Lean, of the parts of the
queue-manager source that the specification talks about:

* the invite store operations `validateInvite` (server.js lines 245-299)
  and `recordInviteUsage` (server.js lines 498-544),
* the gateway queue operations `joinQueue`, `leaveQueue`,
  `handleDisconnect`, `processQueue` and the synchronous prefix of
  `startSession` (server.js lines 167-239, 301-311, 337-582),
* the session-termination trace of `endSession`
  (services/session.js lines 338-416),
* the session-validation HTTP endpoint (routes/session.js lines 23-52),
* the disconnect-grace state machine of the supervisor, modelled from
  the specification where the handler itself is not part of the sources
  (its declarations live in services/state.js and config/index.js).

The broker is a single-threaded Node.js event loop; every message
handler runs to completion (up to its first await) without
interleaving, so each handler is embedded as a pure function from the
broker state to the broker state together with the list of messages it
emits.  Machine integers are modelled as `Int`/`Nat`: all the
quantities involved (timestamps in milliseconds, queue lengths,
use counts) stay far below any overflow boundary in JavaScript's
number range, and the source performs no wrap-around arithmetic.
-/

namespace QueueManager

/-- Configured maximum queue size (server.js line 35, default 10). -/
def MAX_QUEUE_SIZE : Nat := 10

/-- Configured session timeout in minutes (server.js line 34, default 60). -/
def SESSION_TIMEOUT_MINUTES : Nat := 60

/-- Invite audit retention in days (server.js line 54). -/
def AUDIT_RETENTION_DAYS : Nat := 30

/-- Disconnect grace period in milliseconds (config/index.js,
DISCONNECT_GRACE_MS). -/
def DISCONNECT_GRACE_MS : Nat := 10000

/-- Invite status strings used by the store
(`pending`, `used`, `expired`, `revoked`). -/
inductive InviteStatus
  | pending
  | used
  | expired
  | revoked
  deriving DecidableEq, Repr

/-- One session-usage audit record appended to an invite
(server.js lines 512-522). -/
structure AuditRecord where
  sessionId : String
  clientId : String
  startedAt : Int
  endedAt : Int
  endReason : String
  queueWaitMs : Int
  ip : String
  userAgent : String
  errors : List String
  deriving DecidableEq, Repr

/-- The JSON document stored under `invite:<token>`.  Timestamps are
milliseconds since the epoch (the value of `new Date(...).getTime()`). -/
structure InviteRecord where
  status : InviteStatus
  useCount : Nat
  maxUses : Nat
  expiresAt : Int
  sessions : List AuditRecord
  deriving DecidableEq, Repr

/-- An invite record together with the remaining TTL (in seconds) that
redis reports for its key. -/
structure InviteEntry where
  record : InviteRecord
  ttl : Int
  deriving DecidableEq, Repr

/-- The redis keyspace restricted to `invite:*` keys, as an association
list from token to entry. -/
abbrev Store := List (String × InviteEntry)

/-- Redis GET on the invite keyspace. -/
def lookupStore : Store → String → Option InviteEntry
  | [], _ => none
  | (k, v) :: rest, t => if k = t then some v else lookupStore rest t

/-- Redis SET on the invite keyspace: replace the entry in place if the
key exists, append it otherwise. -/
def storeSet : Store → String → InviteEntry → Store
  | [], t, v => [(t, v)]
  | (k, w) :: rest, t, v =>
      if k = t then (t, v) :: rest else (k, w) :: storeSet rest t v

/-- Failure reasons of invite validation (the closed set produced by
`validateInvite`, server.js lines 245-299). -/
inductive VReason
  | invalid
  | not_found
  | revoked
  | used
  | expired
  deriving DecidableEq, Repr

/-- Result of invite validation. -/
inductive VResult
  | err (r : VReason)
  | ok (inv : InviteRecord)
  deriving DecidableEq, Repr

/-- The failure reason of a validation result, if any. -/
def VResult.reason : VResult → Option VReason
  | .err r => some r
  | .ok _ => none

/-- The function `validateInvite` (server.js lines 245-299).  The checks in source
order: malformed token (length < 10), record missing from redis,
status revoked, status used or use count at cap, clock past
expiration.  On the expiration check the record is re-persisted with
status `expired`, keeping the TTL redis reports when it is positive
and falling back to 86400 seconds otherwise.  Returns the validation
result together with the store after the call. -/
def validateInvite (store : Store) (now : Int) (token : String) :
    VResult × Store :=
  if token.length < 10 then
    (.err .invalid, store)
  else
    match lookupStore store token with
    | none => (.err .not_found, store)
    | some e =>
      if e.record.status = .revoked then
        (.err .revoked, store)
      else if e.record.status = .used ∨ e.record.useCount ≥ e.record.maxUses then
        (.err .used, store)
      else if e.record.expiresAt < now then
        (.err .expired,
          storeSet store token
            ⟨{ e.record with status := .expired },
             if e.ttl > 0 then e.ttl else 86400⟩)
      else
        (.ok e.record, store)

/-- The effect of one `recordInviteUsage` call on the invite record
itself (server.js lines 510-528): append the session audit record,
increment the use count, and flip the status to `used` once the use
count has reached the cap. -/
def consumeInvite (inv : InviteRecord) (a : AuditRecord) : InviteRecord :=
  let n := inv.useCount + 1
  { inv with
    sessions := inv.sessions ++ [a]
    useCount := n
    status := if n ≥ inv.maxUses then .used else inv.status }

/-- The TTL written back by `recordInviteUsage`
(server.js lines 530-536): audit retention past the invite's
expiration, and at least one day. -/
def consumeTtl (inv : InviteRecord) (now : Int) : Int :=
  max (Int.fdiv (inv.expiresAt - now
        + (AUDIT_RETENTION_DAYS : Int) * 24 * 60 * 60 * 1000) 1000) 86400

/-- The function `recordInviteUsage` as a store transformer (server.js lines
498-544): a missing record is left alone, otherwise the record is
consumed and re-persisted with the extended TTL. -/
def recordInviteUsageStore (store : Store) (token : String)
    (a : AuditRecord) (now : Int) : Store :=
  match lookupStore store token with
  | none => store
  | some e =>
      storeSet store token
        ⟨consumeInvite e.record a, consumeTtl e.record now⟩

/-- A gateway client record (server.js lines 113-120).  The connection
handle itself is immaterial; records are keyed by the client id. -/
structure Client where
  id : String
  cstate : String
  joinedAt : Option Int
  ip : String
  userAgent : String
  inviteToken : Option String
  deriving DecidableEq, Repr

/-- The in-memory active-session record of the monolithic server
(server.js lines 373-384).  The ttyd child-process handle is not
modelled; none of the queue claims depend on it. -/
structure Session where
  clientId : String
  sessionId : String
  startedAt : Int
  expiresAt : Int
  inviteToken : Option String
  ip : String
  userAgent : String
  queueWaitMs : Int
  errors : List String
  deriving DecidableEq, Repr

/-- The broker state touched by the queue operations: the waiting
queue of client ids (server.js line 50), the active-session singleton
(line 51) and the invite keyspace in redis. -/
structure GState where
  queue : List String
  activeSession : Option Session
  store : Store
  deriving DecidableEq

/-- Messages the gateway emits while handling one inbound message.  A
broadcast (server.js lines 325-331) sends every queued client its
1-based position computed from the queue it carries, so it is recorded
as one event holding that queue. -/
inductive OutMsg
  | error (message : String)
  | inviteInvalid (r : VReason)
  | queueFull
  | queuePosition (position queueSize : Nat)
  | sessionStarting (clientId : String)
  | leftQueue
  | sessionEnded (reason : String)
  | broadcastPositions (q : List String)
  deriving DecidableEq, Repr

/-- Zero-based index of the first occurrence of `x`, or the length of the
list when absent (the guarded uses below only ever apply it to present
elements, mirroring the `indexOf !== -1` guards in the source). -/
def indexOfD : List String → String → Nat
  | [], _ => 0
  | y :: rest, x => if y = x then 0 else indexOfD rest x + 1

/-- The session record minted by `startSession`
(server.js lines 369-384). -/
def mkSession (c : Client) (now : Int) (freshId : String) : Session :=
  { clientId := c.id
    sessionId := freshId
    startedAt := now
    expiresAt := now + (SESSION_TIMEOUT_MINUTES : Int) * 60 * 1000
    inviteToken := c.inviteToken
    ip := c.ip
    userAgent := c.userAgent
    queueWaitMs := match c.joinedAt with | some j => now - j | none => 0
    errors := [] }

/-- The synchronous prefix of `startSession` (server.js lines 337-416):
splice the client out of the queue, mark it active, mint the session
record and emit `session_starting`.  `freshId` stands for the fresh
UUID `uuidv4()` returns.  The ttyd spawn, the timers and the redis
persistence have no effect on the queue state. -/
def startSessionStep (st : GState) (c : Client) (now : Int)
    (freshId : String) : GState × Client × List OutMsg :=
  let q2 := st.queue.erase c.id
  ({ st with queue := q2, activeSession := some (mkSession c now freshId) },
   { c with cstate := "active" },
   [.sessionStarting c.id])

/-- The admission tail of `joinQueue` (server.js lines 215-238): the
queue-cap check, the push, the promote-or-position decision and the
closing broadcast. -/
def joinQueueAdmit (st : GState) (c : Client) (now : Int)
    (freshId : String) : GState × Client × List OutMsg :=
  if st.queue.length ≥ MAX_QUEUE_SIZE then
    (st, c, [.queueFull])
  else
    let q1 := st.queue ++ [c.id]
    let st1 : GState := { st with queue := q1 }
    let c1 : Client := { c with cstate := "queued", joinedAt := some now }
    let r :=
      if st1.activeSession.isNone ∧ q1.head? = some c.id then
        startSessionStep st1 c1 now freshId
      else
        (st1, c1, [.queuePosition (indexOfD q1 c.id + 1) q1.length])
    (r.1, r.2.1, r.2.2 ++ [.broadcastPositions r.1.queue])

/-- The outcome of one `join_queue` message: the new broker state, the
caller's updated record, the messages emitted, and the list of invite
tokens looked up in the store during the call. -/
structure JQResult where
  st : GState
  client : Client
  msgs : List OutMsg
  consulted : List String
  deriving DecidableEq

/-- The handler `joinQueue` (server.js lines 192-239): duplicate check against the
queue, invite validation when a token was supplied, then admission. -/
def joinQueue (st : GState) (c : Client) (tok : Option String)
    (now : Int) (freshId : String) : JQResult :=
  if st.queue.contains c.id then
    ⟨st, c, [.error "Already in queue"], []⟩
  else
    match tok with
    | none =>
        let r := joinQueueAdmit st c now freshId
        ⟨r.1, r.2.1, r.2.2, []⟩
    | some t =>
        let v := validateInvite st.store now t
        match v.1 with
        | .err reason =>
            ⟨{ st with store := v.2 }, c, [.inviteInvalid reason], [t]⟩
        | .ok _ =>
            let c1 : Client := { c with inviteToken := some t }
            let r := joinQueueAdmit { st with store := v.2 } c1 now freshId
            ⟨r.1, r.2.1, r.2.2, [t]⟩

/-- The handler `leaveQueue` (server.js lines 301-311): remove the caller if
queued, confirm with `left_queue` and broadcast; no-op otherwise. -/
def leaveQueue (st : GState) (c : Client) : GState × Client × List OutMsg :=
  if st.queue.contains c.id then
    let q := st.queue.erase c.id
    ({ st with queue := q }, { c with cstate := "connected" },
     [.leftQueue, .broadcastPositions q])
  else
    (st, c, [])

/-- The promotion loop of `processQueue` (server.js lines 567-581) on
the queue list: shift disconnected clients off the head until a
connected one is found; that one is started (which splices it out). -/
def promoteNext (clientOf : String → Option Client) (now : Int)
    (freshId : String) : List String → List String × Option Session
  | [] => ([], none)
  | id :: rest =>
      match clientOf id with
      | some c => (rest, some (mkSession c now freshId))
      | none => promoteNext clientOf now freshId rest

/-- The function `processQueue` (server.js lines 567-581): promote the next queued
client when no session is active.  `clientOf` is the gateway's
client-id lookup (`findClientWs`); a `none` answer is a client whose
connection is gone. -/
def processQueue (st : GState) (clientOf : String → Option Client)
    (now : Int) (freshId : String) : GState :=
  if st.activeSession.isSome then st
  else
    let r := promoteNext clientOf now freshId st.queue
    { st with queue := r.1, activeSession := r.2 }

/-- The monolithic `endSession` (server.js lines 451-496) restricted to
the state components: record invite usage when a token was bound,
clear the singleton, then run `processQueue`. -/
def endSessionMono (st : GState) (reason : String)
    (clientOf : String → Option Client) (now : Int) (freshId : String) :
    GState × List OutMsg :=
  match st.activeSession with
  | none => (st, [])
  | some sess =>
      let store' :=
        match sess.inviteToken with
        | some t =>
            recordInviteUsageStore st.store t
              { sessionId := sess.sessionId
                clientId := sess.clientId
                startedAt := sess.startedAt
                endedAt := now
                endReason := reason
                queueWaitMs := sess.queueWaitMs
                ip := sess.ip
                userAgent := sess.userAgent
                errors := sess.errors } now
        | none => st.store
      let st1 : GState := { st with store := store', activeSession := none }
      (processQueue st1 clientOf now freshId, [.sessionEnded reason])

/-- The handler `handleDisconnect` of the monolithic server (server.js lines
167-186): splice the client out of the queue and broadcast, then end
the session if the client owned it. -/
def handleDisconnect (st : GState) (c : Client)
    (clientOf : String → Option Client) (now : Int) (freshId : String) :
    GState × List OutMsg :=
  let r1 :=
    if st.queue.contains c.id then
      let q := st.queue.erase c.id
      (({ st with queue := q } : GState), [OutMsg.broadcastPositions q])
    else
      (st, [])
  match r1.1.activeSession with
  | some sess =>
      if sess.clientId = c.id then
        let r2 := endSessionMono r1.1 "disconnected" clientOf now freshId
        (r2.1, r1.2 ++ r2.2)
      else
        r1
  | none => r1

/-- The active-session record of the refactored service
(services/state.js line 11, services/session.js lines 213-226).
Handles and closures are represented by their presence: `ttydProcess`,
`hardTimeout` and `envFileCleanup` say whether the process handle, the
armed hard-kill timer and the credential-file cleanup closure are
non-null. -/
structure ActiveSessionR where
  clientId : String
  sessionId : String
  sessionToken : Option String
  ip : String
  inviteToken : Option String
  ttydProcess : Bool
  hardTimeout : Bool
  envFileCleanup : Bool
  deriving DecidableEq, Repr

/-- The observable actions of `endSession`
(services/session.js lines 338-416), in the order the code can
perform them. -/
inductive EndAction
  | killTtyd
  | clearHardTimeout
  | envCleanup
  | clearToken
  | recordInvite
  | notifyEnded (reason : String)
  | redisDel
  | sandboxCleanup
  | processNext
  deriving DecidableEq, Repr

/-- The action trace of one `endSession` call
(services/session.js lines 338-416).  Each conditional segment mirrors
a guard in the source: the ttyd kill (line 362), the hard-timeout
cancellation (line 371), the credential env-file cleanup (line 377),
the token-map removal inside `clearSessionToken` (lines 41-45, guarded
on the token being present), the invite usage recording (line 385),
and the `session_ended` notification (line 390, skipped when the
owning client's connection is gone). -/
def endSessionTrace (s : Option ActiveSessionR) (reason : String)
    (wsFound : Bool) : List EndAction :=
  match s with
  | none => []
  | some sess =>
      (if sess.ttydProcess then [.killTtyd] else []) ++
      (if sess.hardTimeout then [.clearHardTimeout] else []) ++
      (if sess.envFileCleanup then [.envCleanup] else []) ++
      (if sess.sessionToken.isSome then [.clearToken] else []) ++
      (if sess.inviteToken.isSome then [.recordInvite] else []) ++
      (if wsFound then [.notifyEnded reason] else []) ++
      [.redisDel, .sandboxCleanup, .processNext]

/-- A pending session token entry
(services/state.js line 17): token -> client id, bound invite, remote
address, creation time. -/
structure PendingEntry where
  clientId : String
  inviteToken : Option String
  ip : String
  createdAt : Int
  deriving DecidableEq, Repr

/-- Association-list lookup keyed by strings (the in-memory Maps of
services/state.js). -/
def alistLookup {β : Type} : List (String × β) → String → Option β
  | [], _ => none
  | (k, v) :: rest, t => if k = t then some v else alistLookup rest t

/-- Association-list removal keyed by strings (Map.delete). -/
def alistRemove {β : Type} : List (String × β) → String → List (String × β)
  | [], _ => []
  | (k, v) :: rest, t =>
      if k = t then rest else (k, v) :: alistRemove rest t

/-- The state read by the HTTP session routes (services/state.js):
the active-session token map, the pending token map, and the
active-session singleton. -/
structure RState where
  sessionTokens : List (String × String)
  pendingSessionTokens : List (String × PendingEntry)
  activeSession : Option ActiveSessionR
  deriving DecidableEq

/-- Outcome of an HTTP handler on the session routes. -/
inductive HttpResult
  | ok200 (grafanaUser : String)
  | unauthorized401 (body : String)
  deriving DecidableEq, Repr

/-- The active-token test of the validation endpoint
(routes/session.js lines 33-37): the cookie resolves through the
session-token map to a session id equal to the active session's. -/
def activeTokenMatch (st : RState) (ck : String) : Option String :=
  match alistLookup st.sessionTokens ck, st.activeSession with
  | some sid, some a => if a.sessionId = sid then some sid else none
  | _, _ => none

/-- GET /api/session/validate (routes/session.js lines 23-52).  The
`remoteIp` argument is the requesting remote address; the handler
never reads it — the comparison the specification describes does not
exist in the source.  Returns the HTTP outcome and the state after the
call (a stale token found in the map on the 401 path is deleted). -/
def validateSessionEndpoint (st : RState) (cookie : Option String)
    (remoteIp : String) : HttpResult × RState :=
  match cookie with
  | none => (.unauthorized401 "No session cookie", st)
  | some ck =>
      match activeTokenMatch st ck with
      | some sid => (.ok200 ("demo-" ++ sid.take 8), st)
      | none =>
          match alistLookup st.pendingSessionTokens ck with
          | some p => (.ok200 ("demo-" ++ p.clientId.take 8), st)
          | none =>
              let st' :=
                if (alistLookup st.sessionTokens ck).isSome then
                  { st with
                    sessionTokens := alistRemove st.sessionTokens ck }
                else st
              (.unauthorized401 "Session not active", st')

/-- A caller that has passed the invite gate of `joinQueue`: either no
invite token was supplied, or the supplied token validates against the
current store. -/
def validOrAbsent (st : GState) (tok : Option String) (now : Int) : Prop :=
  tok = none ∨
    ∃ t inv, tok = some t ∧ (validateInvite st.store now t).1 = .ok inv

/-- Spec-side rendering of the invite validation policy, used to state
the ordering claim: the list of checks in the order the specification
gives them — malformed, not found, revoked, used/cap-reached,
expired — each paired with its reason code. -/
def specCheckList (store : Store) (now : Int) (token : String) :
    List (Bool × VReason) :=
  [ (decide (token.length < 10), .invalid),
    ((lookupStore store token).isNone, .not_found),
    ((lookupStore store token).any fun e =>
       decide (e.record.status = .revoked), .revoked),
    ((lookupStore store token).any fun e =>
       decide (e.record.status = .used) ||
       decide (e.record.useCount ≥ e.record.maxUses), .used),
    ((lookupStore store token).any fun e =>
       decide (e.record.expiresAt < now), .expired) ]

/-- Spec-side validation outcome: the reason of the first failing
check in `specCheckList`, or none when every check passes. -/
def specFirstFailingReason (store : Store) (now : Int) (token : String) :
    Option VReason :=
  (specCheckList store now token).findSome? fun p =>
    if p.1 then some p.2 else none

end QueueManager

namespace ReconnectGrace

/-- Modelled from the spec: the supervisor's disconnect-grace handling.
The handler that reacts to a websocket close while its client owns the
active session is not among the sources; only its declarations are —
the grace-timer slot and the single-flight reconnection flag in
services/state.js (lines 20-24) and the 10000 ms DISCONNECT_GRACE_MS
constant in config/index.js.  Following the specification: on owner
disconnect the supervisor enters DisconnectedGrace and arms a grace
timer; a reconnection presenting the matching session token within the
window rebinds the session and cancels the timer; if the timer expires
first the session is ended with reason "disconnected".

This structure is the part of the active session the grace protocol
needs: the owning client and the minted session token. -/
structure GSession where
  clientId : String
  sessionToken : String
  deriving DecidableEq, Repr

/-- Modelled from the spec: the supervisor's singleton slot as seen by
the grace protocol.  `active` carries the live session;
`disconnectedGrace` additionally carries the instant (ms epoch) at
which the grace window closes. -/
inductive SupState
  | idle
  | active (s : GSession)
  | disconnectedGrace (s : GSession) (deadline : Int)
  deriving DecidableEq, Repr

/-- Modelled from the spec: client disconnect.  If the disconnecting
client owns the active session the slot moves to DisconnectedGrace
with the grace timer armed for DISCONNECT_GRACE_MS milliseconds; the
session is not ended.  Any other disconnect leaves the slot alone. -/
def onOwnerDisconnect (st : SupState) (clientId : String) (now : Int) :
    SupState :=
  match st with
  | .active s =>
      if s.clientId = clientId then
        .disconnectedGrace s (now + (QueueManager.DISCONNECT_GRACE_MS : Int))
      else .active s
  | other => other

/-- Modelled from the spec: a reconnection attempt presenting a session
token.  Within the grace window and with the matching token the
session is rebound (back to Active) and the grace timer cancelled;
otherwise the state is unchanged. -/
def onReconnect (st : SupState) (token : String) (now : Int) : SupState :=
  match st with
  | .disconnectedGrace s deadline =>
      if token = s.sessionToken ∧ now ≤ deadline then .active s
      else .disconnectedGrace s deadline
  | other => other

/-- Modelled from the spec: the grace timer firing.  If the slot is
still in DisconnectedGrace once the deadline has passed, the session
is ended with reason "disconnected" and the slot returns to idle.
Returns the new slot and the end reason when a session was ended. -/
def onGraceExpiry (st : SupState) (now : Int) : SupState × Option String :=
  match st with
  | .disconnectedGrace s deadline =>
      if deadline ≤ now then (.idle, some "disconnected")
      else (.disconnectedGrace s deadline, none)
  | other => (other, none)

end ReconnectGrace

namespace QueueManager

/-- A concrete invite store holding one revoked and one expired-clock
record, used to exercise the validation checks. -/
def w3store : Store :=
  [("tok-revoked-1", ⟨⟨.revoked, 0, 1, 1000, []⟩, 500⟩),
   ("tok-expired-1", ⟨⟨.pending, 0, 1, 50, []⟩, 700⟩)]

/-- A concrete fresh two-use invite record. -/
def w5invite : InviteRecord := ⟨.pending, 0, 2, 1000, []⟩

/-- A concrete audit record. -/
def w5audit : AuditRecord :=
  ⟨"sess-1", "client-aaaa", 0, 900, "timeout", 0, "1.1.1.1", "ua", []⟩

/-- A concrete active session owned by client-aaaa. -/
def cSessA : Session :=
  { clientId := "client-aaaa"
    sessionId := "sess-1"
    startedAt := 0
    expiresAt := 3600000
    inviteToken := none
    ip := "1.1.1.1"
    userAgent := "ua"
    queueWaitMs := 0
    errors := [] }

/-- A broker state in which client-aaaa owns the active session and
the queue is empty. -/
def cStA : GState := { queue := [], activeSession := some cSessA, store := [] }

/-- The gateway record of client-aaaa while its session runs. -/
def cClientA : Client :=
  { id := "client-aaaa"
    cstate := "active"
    joinedAt := none
    ip := "1.1.1.1"
    userAgent := "ua"
    inviteToken := none }

/-- An idle broker state: empty queue, no session, empty store. -/
def cStEmpty : GState := { queue := [], activeSession := none, store := [] }

/-- A broker state whose queue is exactly at the configured cap. -/
def cStFull : GState :=
  { queue := ["q01", "q02", "q03", "q04", "q05",
              "q06", "q07", "q08", "q09", "q10"]
    activeSession := some cSessA
    store := [] }

/-- The refactored active-session record with every optional handle
present, used to exercise the full termination trace. -/
def wSess4 : ActiveSessionR :=
  { clientId := "client-aaaa"
    sessionId := "sid-00000001"
    sessionToken := some "tok-aaaaaaaa"
    ip := "1.2.3.4"
    inviteToken := some "inv-aaaaaaaa"
    ttydProcess := true
    hardTimeout := true
    envFileCleanup := true }

/-- A route state holding an active session whose token map contains
the session's token, minted from address 1.2.3.4. -/
def wRState1 : RState :=
  { sessionTokens := [("tok-aaaaaaaa", "sid-00000001")]
    pendingSessionTokens := []
    activeSession := some wSess4 }

end QueueManager

namespace ReconnectGrace

/-- A concrete session for the grace-protocol scenarios. -/
def wGSess : GSession := ⟨"client-aaaa", "tok-aaaaaaaa"⟩

end ReconnectGrace

open QueueManager ReconnectGrace

/-- Iterating `consumeInvite` on a fresh invite: after `k` consumes the
use count is `k`, the cap is untouched, one audit record was appended
per consume, and the status is `used` exactly once the use count has
reached the cap. -/
theorem consume_iter_spec (m : Nat) (inv : InviteRecord) (a : AuditRecord)
    (hst : inv.status = .pending) (huc : inv.useCount = 0)
    (hmax : inv.maxUses = m) (hm : 1 ≤ m) :
    ∀ k,
      ((fun i => consumeInvite i a)^[k] inv).useCount = k ∧
      ((fun i => consumeInvite i a)^[k] inv).maxUses = m ∧
      ((fun i => consumeInvite i a)^[k] inv).sessions.length
        = inv.sessions.length + k ∧
      ((fun i => consumeInvite i a)^[k] inv).status
        = (if m ≤ k then .used else .pending) := by
  intro k
  induction k with
  | zero =>
      have : ¬ m ≤ 0 := by omega
      simp [huc, hmax, hst, this]
  | succ k ih =>
      obtain ⟨h1, h2, h3, h4⟩ := ih
      rw [Function.iterate_succ_apply']
      set x := (fun i => consumeInvite i a)^[k] inv with hx
      refine ⟨?_, ?_, ?_, ?_⟩
      · simp [consumeInvite, h1]
      · simp [consumeInvite, h2]
      · simp [consumeInvite, h3]; omega
      · by_cases hk : m ≤ k + 1
        · simp [consumeInvite, h1, h2, hk]
        · have hk' : ¬ m ≤ k := by omega
          rw [if_neg hk'] at h4
          simp [consumeInvite, h1, h2, hk, h4]

/-- C5: For every invite created with maximum uses max_uses, after
exactly max_uses consume operations (each appending a session audit
record and incrementing the use count) the invite's status is Used,
and it is not Used after fewer consumes. -/
theorem claim_C5_used_after_max_consumes (m : Nat) (inv : InviteRecord)
    (a : AuditRecord) (hst : inv.status = .pending) (huc : inv.useCount = 0)
    (hmax : inv.maxUses = m) (hm : 1 ≤ m) :
    ((fun i => consumeInvite i a)^[m] inv).status = .used ∧
    (∀ k, k < m → ((fun i => consumeInvite i a)^[k] inv).status ≠ .used) ∧
    (∀ k, ((fun i => consumeInvite i a)^[k] inv).useCount = k ∧
          ((fun i => consumeInvite i a)^[k] inv).sessions.length
            = inv.sessions.length + k) := by
  have h := consume_iter_spec m inv a hst huc hmax hm
  refine ⟨?_, ?_, ?_⟩
  · have := (h m).2.2.2
    simpa using this
  · intro k hk
    have := (h k).2.2.2
    have hnk : ¬ m ≤ k := by omega
    rw [this, if_neg hnk]
    simp
  · intro k
    exact ⟨(h k).1, (h k).2.2.1⟩

/-- Witness for C5 at a concrete two-use invite: used after two
consumes, not used after one. -/
theorem claim_C5_witness :
    ((fun i => consumeInvite i w5audit)^[2] w5invite).status = .used ∧
    (∀ k, k < 2 →
      ((fun i => consumeInvite i w5audit)^[k] w5invite).status ≠ .used) ∧
    (∀ k, ((fun i => consumeInvite i w5audit)^[k] w5invite).useCount = k ∧
          ((fun i => consumeInvite i w5audit)^[k] w5invite).sessions.length
            = w5invite.sessions.length + k) :=
  claim_C5_used_after_max_consumes 2 w5invite w5audit rfl rfl rfl
    (by decide)

/-- C3: For every token submitted to invite validation, the checks are
applied in exactly this order, returning the reason of the first
failing check: malformed (length < 10) -> not found in the store ->
revoked -> used (status Used or use count >= max uses) -> expired
(with the record's status persisted as Expired on encounter, keeping
the remaining TTL) -> Ok.  Formally: the reason `validateInvite`
returns is the first failing check of the specification's ordered
check list, and on the expired outcome the record is re-persisted with
status Expired and its remaining TTL whenever that TTL is positive. -/
theorem claim_C3_validation_order (store : Store) (now : Int)
    (token : String) :
    ((validateInvite store now token).1).reason
      = specFirstFailingReason store now token ∧
    (∀ e, lookupStore store token = some e →
      (validateInvite store now token).1 = .err .expired →
      0 < e.ttl →
      (validateInvite store now token).2
        = storeSet store token ⟨{ e.record with status := .expired }, e.ttl⟩) := by
  constructor
  · by_cases h1 : token.length < 10
    · simp [validateInvite, specFirstFailingReason, specCheckList, h1,
        VResult.reason, List.findSome?]
    · cases hL : lookupStore store token with
      | none =>
          simp [validateInvite, specFirstFailingReason, specCheckList, h1,
            hL, VResult.reason, List.findSome?]
      | some e =>
          by_cases h2 : e.record.status = .revoked
          · simp [validateInvite, specFirstFailingReason, specCheckList,
              h1, hL, h2, VResult.reason, List.findSome?]
          · by_cases h3 : e.record.status = .used
              ∨ e.record.useCount ≥ e.record.maxUses
            · rcases h3 with h3 | h3 <;>
                simp [validateInvite, specFirstFailingReason, specCheckList,
                  h1, hL, h2, h3, VResult.reason, List.findSome?]
            · have h3' := h3
              rw [not_or] at h3'
              by_cases h4 : e.record.expiresAt < now <;>
                simp [validateInvite, specFirstFailingReason, specCheckList,
                  h1, hL, h2, h3, h3'.1, h3'.2, h4, VResult.reason,
                  List.findSome?]
  · intro e hL hres ht
    by_cases h1 : token.length < 10
    · simp [validateInvite, h1] at hres
    · by_cases h2 : e.record.status = .revoked
      · simp [validateInvite, h1, hL, h2] at hres
      · by_cases h3 : e.record.status = .used
            ∨ e.record.useCount ≥ e.record.maxUses
        · simp [validateInvite, h1, hL, h2, h3] at hres
        · by_cases h4 : e.record.expiresAt < now
          · simp [validateInvite, h1, hL, h2, h3, h4, ht]
          · simp [validateInvite, h1, hL, h2, h3, h4] at hres

/-- Witness for C3 on a concrete store: a revoked record reports
revoked, and an expired-clock record is re-persisted as Expired with
its remaining 700-second TTL intact. -/
theorem claim_C3_witness :
    ((validateInvite w3store 100 "tok-revoked-1").1).reason
      = some .revoked ∧
    (validateInvite w3store 100 "tok-expired-1").2
      = [("tok-revoked-1", ⟨⟨.revoked, 0, 1, 1000, []⟩, 500⟩),
         ("tok-expired-1", ⟨⟨.expired, 0, 1, 50, []⟩, 700⟩)] :=
  ⟨((claim_C3_validation_order w3store 100 "tok-revoked-1").1).trans
      (by decide),
   ((claim_C3_validation_order w3store 100 "tok-expired-1").2
      ⟨⟨.pending, 0, 1, 50, []⟩, 700⟩ (by decide) (by decide)
      (by decide)).trans (by decide)⟩

/-- C6: For every join_queue from a validated client arriving when no
session is active and the queue is empty, a session is started for
that client directly and the client is not inserted into the queue:
after the handler runs the queue is still empty, the active session
belongs to the caller, and the caller was sent session_starting. -/
theorem claim_C6_empty_queue_promotes_directly (st : GState) (c : Client)
    (tok : Option String) (now : Int) (freshId : String)
    (hA : st.activeSession = none) (hQ : st.queue = [])
    (hV : validOrAbsent st tok now) :
    ∃ sess,
      (joinQueue st c tok now freshId).st.activeSession = some sess ∧
      sess.clientId = c.id ∧
      (joinQueue st c tok now freshId).st.queue = [] ∧
      OutMsg.sessionStarting c.id ∈ (joinQueue st c tok now freshId).msgs := by
  rcases hV with rfl | ⟨t, inv, rfl, hok⟩
  · refine ⟨mkSession ⟨c.id, "queued", some now, c.ip, c.userAgent,
      c.inviteToken⟩ now freshId, ?_, rfl, ?_, ?_⟩ <;>
      simp [joinQueue, joinQueueAdmit, startSessionStep, hQ, hA,
        MAX_QUEUE_SIZE]
  · refine ⟨mkSession ⟨c.id, "queued", some now, c.ip, c.userAgent,
      some t⟩ now freshId, ?_, rfl, ?_, ?_⟩ <;>
      simp [joinQueue, joinQueueAdmit, startSessionStep, hQ, hA, hok,
        MAX_QUEUE_SIZE]

/-- Witness for C6: a connected client joining the idle empty broker
is promoted directly and the queue stays empty. -/
theorem claim_C6_witness :
    ∃ sess,
      (joinQueue cStEmpty cClientA none 1000 "sess-9").st.activeSession
        = some sess ∧
      sess.clientId = cClientA.id ∧
      (joinQueue cStEmpty cClientA none 1000 "sess-9").st.queue = [] ∧
      OutMsg.sessionStarting cClientA.id
        ∈ (joinQueue cStEmpty cClientA none 1000 "sess-9").msgs :=
  claim_C6_empty_queue_promotes_directly cStEmpty cClientA none 1000
    "sess-9" rfl rfl (Or.inl rfl)

/-- C7 counterexample: client-aaaa owns the active session and is not
in the queue; its further join_queue is not rejected with the
"Already in queue" error — it is enqueued at position 1 instead. -/
theorem claim_C7_counterexample :
    cStA.activeSession = some cSessA ∧
    cSessA.clientId = cClientA.id ∧
    (joinQueue cStA cClientA none 1000 "sess-2").st.queue
      = ["client-aaaa"] ∧
    OutMsg.error "Already in queue"
      ∉ (joinQueue cStA cClientA none 1000 "sess-2").msgs := by
  refine ⟨rfl, rfl, ?_, ?_⟩ <;>
    simp [joinQueue, joinQueueAdmit, cStA, cClientA, cSessA,
      MAX_QUEUE_SIZE, indexOfD]

/-- Zero-based index of an element appended behind a list that does not
contain it. -/
theorem indexOfD_append_self (q : List String) (x : String) (h : x ∉ q) :
    indexOfD (q ++ [x]) x = q.length := by
  induction q with
  | nil => simp [indexOfD]
  | cons y rest ih =>
      have hy : y ≠ x := by
        intro hyx
        exact h (hyx ▸ List.mem_cons_self y rest)
      have hr : x ∉ rest := fun hm => h (List.mem_cons_of_mem y hm)
      simp [indexOfD, hy, ih hr]

/-- C7 amended: the error { message: "Already in queue" } is returned
exactly when the caller's id is already in the queue, and the call
then changes nothing; a client holding the Active session but absent
from the queue passes the duplicate check and (no invite, queue below
cap) is appended to the queue tail and sent its queue position. -/
theorem claim_C7_amended_duplicate_check_only (st : GState) (c : Client)
    (tok : Option String) (now : Int) (freshId : String) :
    (st.queue.contains c.id →
      joinQueue st c tok now freshId
        = ⟨st, c, [.error "Already in queue"], []⟩) ∧
    (∀ sess, st.activeSession = some sess → sess.clientId = c.id →
      ¬ st.queue.contains c.id → st.queue.length < MAX_QUEUE_SIZE →
      tok = none →
      (joinQueue st c tok now freshId).st.queue = st.queue ++ [c.id] ∧
      (joinQueue st c tok now freshId).st.activeSession
        = st.activeSession ∧
      (joinQueue st c tok now freshId).msgs
        = [.queuePosition (st.queue.length + 1) (st.queue.length + 1),
           .broadcastPositions (st.queue ++ [c.id])]) := by
  constructor
  · intro hdup
    have hmem : c.id ∈ st.queue := by simpa using hdup
    simp [joinQueue, hmem]
  · intro sess hsess hown hdup hlen htok
    subst htok
    have hnm : c.id ∉ st.queue := by simpa using hdup
    have hnotlt : ¬ MAX_QUEUE_SIZE ≤ st.queue.length := by omega
    have hsome : st.activeSession.isNone = false := by simp [hsess]
    refine ⟨?_, ?_, ?_⟩ <;>
      simp [joinQueue, joinQueueAdmit, hnm, hnotlt, hsome, hsess,
        indexOfD_append_self st.queue c.id hnm]

/-- Witness for C7's amended claim: in the concrete state where
client-aaaa owns the session, its join_queue appends it to the queue
and reports position 1. -/
theorem claim_C7_amended_witness :
    (joinQueue cStA cClientA none 1000 "sess-2").st.queue
      = cStA.queue ++ [cClientA.id] ∧
    (joinQueue cStA cClientA none 1000 "sess-2").st.activeSession
      = cStA.activeSession ∧
    (joinQueue cStA cClientA none 1000 "sess-2").msgs
      = [.queuePosition (cStA.queue.length + 1) (cStA.queue.length + 1),
         .broadcastPositions (cStA.queue ++ [cClientA.id])] :=
  (claim_C7_amended_duplicate_check_only cStA cClientA none 1000
    "sess-2").2 cSessA rfl rfl (by decide) (by decide) rfl

/-- A successful validation leaves the store untouched (the only write
`validateInvite` performs is the expired-state fix). -/
theorem validateInvite_ok_store (store : Store) (now : Int) (t : String)
    (inv : InviteRecord)
    (h : (validateInvite store now t).1 = .ok inv) :
    (validateInvite store now t).2 = store := by
  by_cases h1 : t.length < 10
  · simp [validateInvite, h1] at h
  · cases hL : lookupStore store t with
    | none => simp [validateInvite, h1, hL] at h
    | some e =>
        by_cases h2 : e.record.status = .revoked
        · simp [validateInvite, h1, hL, h2] at h
        · by_cases h3 : e.record.status = .used
            ∨ e.record.useCount ≥ e.record.maxUses
          · simp [validateInvite, h1, hL, h2, h3] at h
          · by_cases h4 : e.record.expiresAt < now
            · simp [validateInvite, h1, hL, h2, h3, h4] at h
            · simp [validateInvite, h1, hL, h2, h3, h4]

/-- C8: For every join_queue arriving (from a caller not already
queued, with no invite or a valid one) when the queue length equals
the configured maximum, the caller receives queue_full and nothing
changes: the queue, the active session, the store, and the caller's
state and enqueue stamp are all untouched and no position update is
emitted to anyone. -/
theorem claim_C8_queue_full_opens_no_slot (st : GState) (c : Client)
    (tok : Option String) (now : Int) (freshId : String)
    (hdup : ¬ st.queue.contains c.id)
    (hlen : st.queue.length = MAX_QUEUE_SIZE)
    (hV : validOrAbsent st tok now) :
    (joinQueue st c tok now freshId).st.queue = st.queue ∧
    (joinQueue st c tok now freshId).st.activeSession
      = st.activeSession ∧
    (joinQueue st c tok now freshId).st.store = st.store ∧
    (joinQueue st c tok now freshId).msgs = [.queueFull] ∧
    (joinQueue st c tok now freshId).client.cstate = c.cstate ∧
    (joinQueue st c tok now freshId).client.joinedAt = c.joinedAt := by
  have hnm : c.id ∉ st.queue := by simpa using hdup
  have hge : MAX_QUEUE_SIZE ≤ st.queue.length := le_of_eq hlen.symm
  rcases hV with rfl | ⟨t, inv, rfl, hok⟩
  · refine ⟨?_, ?_, ?_, ?_, ?_, ?_⟩ <;>
      simp [joinQueue, joinQueueAdmit, hnm, hge]
  · have hstore := validateInvite_ok_store st.store now t inv hok
    refine ⟨?_, ?_, ?_, ?_, ?_, ?_⟩ <;>
      simp [joinQueue, joinQueueAdmit, hnm, hge, hok, hstore]

/-- Witness for C8: with ten clients queued, an eleventh join_queue
only yields queue_full. -/
theorem claim_C8_witness :
    (joinQueue cStFull cClientA none 1000 "sess-3").st.queue
      = cStFull.queue ∧
    (joinQueue cStFull cClientA none 1000 "sess-3").st.activeSession
      = cStFull.activeSession ∧
    (joinQueue cStFull cClientA none 1000 "sess-3").st.store
      = cStFull.store ∧
    (joinQueue cStFull cClientA none 1000 "sess-3").msgs = [.queueFull] ∧
    (joinQueue cStFull cClientA none 1000 "sess-3").client.cstate
      = cClientA.cstate ∧
    (joinQueue cStFull cClientA none 1000 "sess-3").client.joinedAt
      = cClientA.joinedAt :=
  claim_C8_queue_full_opens_no_slot cStFull cClientA none 1000 "sess-3"
    (by decide) (by decide) (Or.inl rfl)

/-- The promotion loop only ever drops elements from the front of the
queue, so it preserves distinctness. -/
theorem promoteNext_nodup (clientOf : String → Option Client) (now : Int)
    (freshId : String) :
    ∀ q : List String, q.Nodup →
      (promoteNext clientOf now freshId q).1.Nodup
  | [], _ => by simp [promoteNext]
  | id :: rest, h => by
      cases hc : clientOf id with
      | some c => simpa [promoteNext, hc] using h.of_cons
      | none =>
          simpa [promoteNext, hc] using
            promoteNext_nodup clientOf now freshId rest h.of_cons

/-- The function `processQueue` preserves queue distinctness. -/
theorem processQueue_nodup (st : GState)
    (clientOf : String → Option Client) (now : Int) (freshId : String)
    (h : st.queue.Nodup) :
    (processQueue st clientOf now freshId).queue.Nodup := by
  unfold processQueue
  split
  · exact h
  · exact promoteNext_nodup clientOf now freshId st.queue h

/-- The monolithic `endSession` preserves queue distinctness. -/
theorem endSessionMono_nodup (st : GState) (reason : String)
    (clientOf : String → Option Client) (now : Int) (freshId : String)
    (h : st.queue.Nodup) :
    (endSessionMono st reason clientOf now freshId).1.queue.Nodup := by
  unfold endSessionMono
  cases hA : st.activeSession with
  | none => exact h
  | some sess => exact processQueue_nodup _ clientOf now freshId h

/-- The admission tail of `joinQueue` preserves queue distinctness
when the caller is not yet queued. -/
theorem joinQueueAdmit_nodup (st : GState) (c : Client) (now : Int)
    (freshId : String) (h : st.queue.Nodup) (hnm : c.id ∉ st.queue) :
    (joinQueueAdmit st c now freshId).1.queue.Nodup := by
  have hq1 : (st.queue ++ [c.id]).Nodup := by
    simp [List.nodup_append, hnm, h]
  unfold joinQueueAdmit
  split
  · exact h
  · dsimp only
    split
    · exact hq1.erase _
    · exact hq1

/-- C9: In every reachable state, each client identifier appears at
most once in the queue: every queue operation (enqueue, leave,
disconnect removal, promotion) preserves the no-duplicates
invariant. -/
theorem claim_C9_queue_nodup_preserved (st : GState) (c : Client)
    (tok : Option String) (now : Int) (freshId : String)
    (clientOf : String → Option Client) (h : st.queue.Nodup) :
    (joinQueue st c tok now freshId).st.queue.Nodup ∧
    (leaveQueue st c).1.queue.Nodup ∧
    (handleDisconnect st c clientOf now freshId).1.queue.Nodup ∧
    (processQueue st clientOf now freshId).queue.Nodup := by
  refine ⟨?_, ?_, ?_, processQueue_nodup st clientOf now freshId h⟩
  · unfold joinQueue
    by_cases hdup : st.queue.contains c.id
    · rw [if_pos hdup]
      exact h
    · rw [if_neg hdup]
      have hnm : c.id ∉ st.queue := by simpa using hdup
      cases tok with
      | none => exact joinQueueAdmit_nodup st c now freshId h hnm
      | some t =>
          dsimp only
          cases hv : (validateInvite st.store now t).1 with
          | err r => exact h
          | ok inv => exact joinQueueAdmit_nodup _ _ now freshId h hnm
  · unfold leaveQueue
    split
    · exact h.erase _
    · exact h
  · unfold handleDisconnect
    by_cases hq : st.queue.contains c.id
    · have h2 : (st.queue.erase c.id).Nodup := h.erase _
      rw [if_pos hq]
      dsimp only
      split
      · split
        · exact endSessionMono_nodup _ "disconnected" clientOf now freshId h2
        · exact h2
      · exact h2
    · rw [if_neg hq]
      dsimp only
      split
      · split
        · exact endSessionMono_nodup _ "disconnected" clientOf now freshId h
        · exact h
      · exact h

/-- Witness for C9 on a concrete distinct queue. -/
theorem claim_C9_witness :
    (joinQueue cStFull cClientA none 7 "sess-4").st.queue.Nodup ∧
    (leaveQueue cStFull cClientA).1.queue.Nodup ∧
    (handleDisconnect cStFull cClientA (fun _ => none) 7
        "sess-4").1.queue.Nodup ∧
    (processQueue cStFull (fun _ => none) 7 "sess-4").queue.Nodup :=
  claim_C9_queue_nodup_preserved cStFull cClientA none 7 "sess-4"
    (fun _ => none) (by decide)

/-- C10: For every join_queue message whose inviteToken field is
absent, the Invite Store is never consulted: no token is looked up,
the store is unchanged, no invite_invalid outcome is possible, and the
client is admitted (queued or promoted) subject only to the duplicate
and queue-cap checks. -/
theorem claim_C10_no_token_no_store_consult (st : GState) (c : Client)
    (now : Int) (freshId : String) :
    (joinQueue st c none now freshId).consulted = [] ∧
    (joinQueue st c none now freshId).st.store = st.store ∧
    (∀ r, OutMsg.inviteInvalid r ∉ (joinQueue st c none now freshId).msgs) ∧
    (st.queue.contains c.id →
      (joinQueue st c none now freshId).msgs
        = [.error "Already in queue"]) ∧
    (¬ st.queue.contains c.id → MAX_QUEUE_SIZE ≤ st.queue.length →
      (joinQueue st c none now freshId).msgs = [.queueFull]) ∧
    (¬ st.queue.contains c.id → st.queue.length < MAX_QUEUE_SIZE →
      c.id ∈ (joinQueue st c none now freshId).st.queue ∨
      ∃ sess,
        (joinQueue st c none now freshId).st.activeSession = some sess ∧
        sess.clientId = c.id) := by
  by_cases hdup : st.queue.contains c.id
  · have hmem : c.id ∈ st.queue := by simpa using hdup
    refine ⟨?_, ?_, ?_, ?_, ?_, ?_⟩ <;>
      simp [joinQueue, hmem]
  · have hnm : c.id ∉ st.queue := by simpa using hdup
    by_cases hcap : MAX_QUEUE_SIZE ≤ st.queue.length
    · refine ⟨?_, ?_, ?_, ?_, ?_, ?_⟩ <;>
        simp [joinQueue, joinQueueAdmit, hnm, hcap]
    · have hlt : ¬ st.queue.length ≥ MAX_QUEUE_SIZE := hcap
      have hstep :
          joinQueue st c none now freshId
            = ⟨(joinQueueAdmit st c now freshId).1,
               (joinQueueAdmit st c now freshId).2.1,
               (joinQueueAdmit st c now freshId).2.2, []⟩ := by
        unfold joinQueue
        rw [if_neg hdup]
      rw [hstep]
      unfold joinQueueAdmit
      rw [if_neg hlt]
      dsimp only
      refine ⟨rfl, ?_, ?_, ?_, ?_, ?_⟩
      · split <;> rfl
      · intro r
        split <;> simp [startSessionStep]
      · intro hx
        exact absurd hx hdup
      · intro _ hge
        exact absurd hge hcap
      · intro _ _
        split
        · right
          exact ⟨_, rfl, rfl⟩
        · left
          simp

/-- Witness for C10: the token-less join on the idle broker touches no
invite state. -/
theorem claim_C10_witness :
    (joinQueue cStEmpty cClientA none 5 "sess-5").consulted = [] ∧
    (joinQueue cStEmpty cClientA none 5 "sess-5").st.store
      = cStEmpty.store ∧
    (∀ r, OutMsg.inviteInvalid r
      ∉ (joinQueue cStEmpty cClientA none 5 "sess-5").msgs) :=
  ⟨(claim_C10_no_token_no_store_consult cStEmpty cClientA 5 "sess-5").1,
   (claim_C10_no_token_no_store_consult cStEmpty cClientA 5 "sess-5").2.1,
   (claim_C10_no_token_no_store_consult cStEmpty cClientA 5 "sess-5").2.2.1⟩

/-- C4: In every execution of session termination, the
credential-file cleanup closure is invoked before the session token is
removed from the token map and before the session_ended message is
sent to the owning client: the termination trace splits around the
cleanup action, and nothing before it is the token removal or the
notification. -/
theorem claim_C4_cleanup_before_token_and_notify (sess : ActiveSessionR)
    (reason : String) (wsFound : Bool) (h : sess.envFileCleanup = true) :
    ∃ pre post,
      endSessionTrace (some sess) reason wsFound
        = pre ++ EndAction.envCleanup :: post ∧
      EndAction.clearToken ∉ pre ∧
      (∀ r, EndAction.notifyEnded r ∉ pre) := by
  obtain ⟨cid, sid, tok, ip, invt, ttyd, ht, envc⟩ := sess
  simp only at h
  subst h
  refine ⟨(if ttyd then [.killTtyd] else [])
      ++ (if ht then [.clearHardTimeout] else []),
    (if tok.isSome then [.clearToken] else [])
      ++ ((if invt.isSome then [.recordInvite] else [])
      ++ ((if wsFound then [.notifyEnded reason] else [])
      ++ [.redisDel, .sandboxCleanup, .processNext])), ?_, ?_, ?_⟩
  · simp [endSessionTrace]
  · cases ttyd <;> cases ht <;> simp
  · intro r
    cases ttyd <;> cases ht <;> simp

/-- Witness for C4 on a session with every optional handle present. -/
theorem claim_C4_witness :
    ∃ pre post,
      endSessionTrace (some wSess4) "timeout" true
        = pre ++ EndAction.envCleanup :: post ∧
      EndAction.clearToken ∉ pre ∧
      (∀ r, EndAction.notifyEnded r ∉ pre) :=
  claim_C4_cleanup_before_token_and_notify wSess4 "timeout" true rfl

/-- C1 counterexample: the cookie matches the active session's token,
the recorded minting address is 1.2.3.4, the request comes from
9.9.9.9, and the endpoint still answers 200 — refuting the claim that
200 requires the requesting remote address to equal the recorded
one. -/
theorem claim_C1_counterexample :
    (validateSessionEndpoint wRState1 (some "tok-aaaaaaaa") "9.9.9.9").1
      = .ok200 "demo-sid-0000" ∧
    alistLookup wRState1.sessionTokens "tok-aaaaaaaa"
      = some "sid-00000001" ∧
    wSess4.ip = "1.2.3.4" ∧
    "1.2.3.4" ≠ "9.9.9.9" := by
  refine ⟨?_, by decide, rfl, by decide⟩
  rfl

/-- C1 amended: the response is 200 iff the cookie matches the active
session's token (resolving to the active session id) or a pending
session token; the requesting remote address is never consulted — any
two addresses receive identical responses — and every other request
(including one with no cookie) receives 401. -/
theorem claim_C1_amended_no_address_check (st : RState) (ck : String)
    (ip ip' : String) :
    (validateSessionEndpoint st (some ck) ip).1
      = (validateSessionEndpoint st (some ck) ip').1 ∧
    ((∃ u, (validateSessionEndpoint st (some ck) ip).1 = .ok200 u) ↔
      ((activeTokenMatch st ck).isSome ∨
        (alistLookup st.pendingSessionTokens ck).isSome)) ∧
    (∀ q, (validateSessionEndpoint st none q).1
      = .unauthorized401 "No session cookie") := by
  refine ⟨rfl, ?_, fun q => rfl⟩
  unfold validateSessionEndpoint
  cases hA : activeTokenMatch st ck with
  | some sid => simp [hA]
  | none =>
      cases hP : alistLookup st.pendingSessionTokens ck with
      | some p => simp [hA, hP]
      | none => simp [hA, hP]

/-- Witness for C1's amended claim: the concrete matching cookie gets
200 independent of the requesting address. -/
theorem claim_C1_amended_witness :
    (validateSessionEndpoint wRState1 (some "tok-aaaaaaaa") "5.5.5.5").1
      = (validateSessionEndpoint wRState1 (some "tok-aaaaaaaa")
          "6.6.6.6").1 :=
  (claim_C1_amended_no_address_check wRState1 "tok-aaaaaaaa" "5.5.5.5"
    "6.6.6.6").1

/-- C2: For every disconnect of a client that owns the active session,
the session is not ended immediately: the supervisor enters
DisconnectedGrace and arms a grace timer of DISCONNECT_GRACE_MS =
10000 ms, and only if no reconnection with the matching session token
arrives within that window is the session ended with
reason=disconnected.  Settled against the grace protocol modelled
from the specification (see `ReconnectGrace`). -/
theorem claim_C2_disconnect_grace (s : GSession) (now t1 t2 : Int)
    (tok : String) :
    (onOwnerDisconnect (.active s) s.clientId now
      = .disconnectedGrace s (now + (DISCONNECT_GRACE_MS : Int))) ∧
    DISCONNECT_GRACE_MS = 10000 ∧
    (tok = s.sessionToken → t1 ≤ now + (DISCONNECT_GRACE_MS : Int) →
      onReconnect
        (.disconnectedGrace s (now + (DISCONNECT_GRACE_MS : Int))) tok t1
        = .active s) ∧
    (now + (DISCONNECT_GRACE_MS : Int) ≤ t2 →
      onGraceExpiry
        (.disconnectedGrace s (now + (DISCONNECT_GRACE_MS : Int))) t2
        = (.idle, some "disconnected")) ∧
    onGraceExpiry (.active s) t2 = (.active s, none) := by
  refine ⟨?_, rfl, ?_, ?_, rfl⟩
  · simp [onOwnerDisconnect]
  · intro htok ht1
    simp [onReconnect, htok, ht1]
  · intro ht2
    simp [onGraceExpiry, ht2]

/-- Witness for C2 at a concrete session: disconnect at time 0 arms
the window ending at 10000; a matching reconnection at 4000 rebinds;
an expiry check at 15000 would end with reason disconnected. -/
theorem claim_C2_witness :
    (onOwnerDisconnect (.active wGSess) wGSess.clientId 0
      = .disconnectedGrace wGSess 10000) ∧
    (onReconnect (.disconnectedGrace wGSess 10000) "tok-aaaaaaaa" 4000
      = .active wGSess) ∧
    (onGraceExpiry (.disconnectedGrace wGSess 10000) 15000
      = (.idle, some "disconnected")) := by
  have h := claim_C2_disconnect_grace wGSess 0 4000 15000 "tok-aaaaaaaa"
  exact ⟨h.1, h.2.2.1 rfl (by decide), h.2.2.2.1 (by decide)⟩
